import Mathlib

/-!
Shallow embedding of the BuildCache sources:
  src/cache/cache.cpp          (cache engine: lookups, inserts, direct mode)
  src/wrappers/program_wrapper.cpp (wrapper: capabilities, hit/miss handling)
  src/main.cpp                 (CLI dispatch)

Files are modelled as a map from path to content (`String → Option String`);
a file's on-disk size is the length of its content.  Exceptions are modelled
with `Except String`; functions that the source wraps in try/catch blocks
handle the error case explicitly.  The local and remote cache stores
(`local_cache_t`, `remote_cache_t`) are not part of the provided sources, so
their operations are modelled from the spec (each such definition says so in
its doc comment); the engine code in cache.cpp is translated directly.
-/

namespace BuildCache

/-- `std::map::find` over an association list (the map's key order is the
list order). -/
def map_find {α : Type} (m : List (String × α)) (k : String) : Option α :=
  match m with
  | [] => none
  | (k₂, v) :: rest => if k₂ = k then some v else map_find rest k

/-- Compression mode of a cache entry (cache_entry_t::comp_mode_t). -/
inductive comp_mode_t where
  | NONE
  | ALL
deriving DecidableEq, Repr

/-- An expected output file: target path plus whether its absence at insert
time is an error (expected_file_t). -/
structure expected_file_t where
  path : String
  required : Bool
deriving DecidableEq, Repr

/-- A cache entry (cache_entry_t): file ids, compression mode, captured
stdout/stderr, exit code. -/
structure cache_entry_t where
  file_ids : List String
  compression_mode : comp_mode_t
  std_out : String
  std_err : String
  return_code : Int
deriving DecidableEq, Repr

/-- A direct mode manifest (direct_mode_manifest_t): the preprocessor hash
plus the implicit input files with their recorded content hashes. -/
structure direct_mode_manifest_t where
  hash : String
  files : List (String × String)
deriving DecidableEq, Repr

/-- Statistics counters tallied by the local cache (direct hits/misses,
remote hits/misses). -/
structure stats_t where
  direct_hit : Nat
  direct_miss : Nat
  remote_hit : Nat
  remote_miss : Nat
deriving DecidableEq, Repr

/-- A statistics delta (cache_stats_t::direct_hit() and friends). -/
inductive cache_stats_t where
  | direct_hit
  | direct_miss
  | remote_hit
  | remote_miss
deriving DecidableEq, Repr

/-- Apply a statistics delta to the counters. -/
def stats_t.apply (s : stats_t) : cache_stats_t → stats_t
  | .direct_hit => { s with direct_hit := s.direct_hit + 1 }
  | .direct_miss => { s with direct_miss := s.direct_miss + 1 }
  | .remote_hit => { s with remote_hit := s.remote_hit + 1 }
  | .remote_miss => { s with remote_miss := s.remote_miss + 1 }

/-- The content hash of a file content string (hasher_t).  The hash is
opaque in the source; it is modelled by an injective tagging function. -/
def hasher_hash (content : String) : String :=
  String.append "h:" content

/-- Modelled from the spec: the local cache store (Local Cache, spec 4.4),
missing from src/.  Content addressed entries, the direct mode manifest
sub-store, and the statistics counters. -/
structure local_cache_t where
  entries : String → Option cache_entry_t
  manifests : String → Option direct_mode_manifest_t
  stats : stats_t

/-- Modelled from the spec: `lookup(hash)` of the local cache returns the
stored entry for the hash, if any. -/
def local_cache_t.lookup (lc : local_cache_t) (hash : String) : Option cache_entry_t :=
  lc.entries hash

/-- Modelled from the spec: `add(hash, entry, expected_files,
allow_hard_links)` installs the entry under the hash (payload file copying
and eviction are not observable at the engine level modelled here). -/
def local_cache_t.add (lc : local_cache_t) (hash : String) (entry : cache_entry_t)
    (_expected_files : List (String × expected_file_t)) (_allow_hard_links : Bool) :
    local_cache_t :=
  { lc with entries := fun h => if h = hash then some entry else lc.entries h }

/-- Modelled from the spec: `update_stats(hash, delta)` applies a statistics
delta (counters are modelled globally rather than per shard). -/
def local_cache_t.update_stats (lc : local_cache_t) (_hash : String)
    (delta : cache_stats_t) : local_cache_t :=
  { lc with stats := lc.stats.apply delta }

/-- Whether one implicit input file still hashes to its recorded content
hash: a deleted file never matches. -/
def file_hash_ok (fs : String → Option String) (pr : String × String) : Bool :=
  match fs pr.1 with
  | none => false
  | some content => hasher_hash content = pr.2

/-- Modelled from the spec: `lookup_direct(direct_hash)` of the local cache.
It consults the manifest sub-store, and per the spec a manifest matches iff
every listed implicit file still hashes to the recorded value; on any
mismatch the result is a miss (no manifest). -/
def local_cache_t.lookup_direct (lc : local_cache_t) (fs : String → Option String)
    (direct_hash : String) : Option direct_mode_manifest_t :=
  match lc.manifests direct_hash with
  | none => none
  | some manifest =>
      if manifest.files.all (fun pr => file_hash_ok fs pr) then some manifest else none

/-- Modelled from the spec: the remote cache store (Remote Cache, spec 4.5),
missing from src/.  `connected` is the outcome of `connect()` (idempotent)
and the value of `is_connected()`; `add_ok` is whether a remote `add`
succeeds (failures are exceptions at the call site). -/
structure remote_cache_t where
  connected : Bool
  entries : String → Option cache_entry_t
  add_ok : Bool

/-- Modelled from the spec: `connect()` is lazy and idempotent; it reports
whether the remote backend is reachable. -/
def remote_cache_t.connect (rc : remote_cache_t) : Bool :=
  rc.connected

/-- Modelled from the spec: `is_connected()`. -/
def remote_cache_t.is_connected (rc : remote_cache_t) : Bool :=
  rc.connected

/-- Modelled from the spec: `lookup(hash)` of the remote cache. -/
def remote_cache_t.lookup (rc : remote_cache_t) (hash : String) : Option cache_entry_t :=
  rc.entries hash

/-- Modelled from the spec: `add(hash, entry, expected_files)` of the remote
cache installs the entry under the hash. -/
def remote_cache_t.add (rc : remote_cache_t) (hash : String) (entry : cache_entry_t)
    (_expected_files : List (String × expected_file_t)) : remote_cache_t :=
  { rc with entries := fun h => if h = hash then some entry else rc.entries h }

/-- The configuration knobs read by the engine (config namespace). -/
structure config_t where
  max_local_entry_size : Int
  max_remote_entry_size : Int
  compress : Bool
  read_only_remote : Bool
  hard_links : Bool
deriving DecidableEq, Repr

/-- The engine state: the local and the remote cache (cache_t). -/
structure cache_t where
  m_local_cache : local_cache_t
  m_remote_cache : remote_cache_t

/-- The loop of get_total_entry_size: add each expected file's on-disk size
to the running total; a file that cannot be read is skipped when optional
and rethrown as an IO error when required. -/
def entry_size_loop (fs : String → Option String) :
    List (String × expected_file_t) → Int → Except String Int
  | [], total_size => .ok total_size
  | item :: rest, total_size =>
      let expected_file := item.2
      match fs expected_file.path with
      | some content => entry_size_loop fs rest (total_size + (content.length : Int))
      | none =>
          if expected_file.required then .error "IO" else entry_size_loop fs rest total_size

/-- get_total_entry_size (cache.cpp, lines 35-50): the total uncompressed
size of an entry is the stdout length plus the stderr length plus the sum
of the expected files' on-disk sizes. -/
def get_total_entry_size (fs : String → Option String) (entry : cache_entry_t)
    (file_paths : List (String × expected_file_t)) : Except String Int :=
  entry_size_loop fs file_paths
    ((entry.std_out.length : Int) + (entry.std_err.length : Int))

/-- The size an expected file contributes to the total: its content length,
or zero when it cannot be read. -/
def file_contrib (fs : String → Option String) (item : String × expected_file_t) : Int :=
  match fs item.2.path with
  | some content => (content.length : Int)
  | none => 0

/-- The sum of the on-disk sizes of the expected files that can be read. -/
def present_files_size (fs : String → Option String)
    (file_paths : List (String × expected_file_t)) : Int :=
  (file_paths.map (file_contrib fs)).sum

/-- The result a cache hit delivers to the caller: the materialized files
(file id and target path), the captured streams and the exit code. -/
structure hit_result where
  files : List (String × String)
  std_out : String
  std_err : String
  return_code : Int
deriving DecidableEq, Repr

/-- The file materialization loop shared by lookup_in_local_cache and
lookup_in_remote_cache (cache.cpp, lines 209-227 and 259-277): for every
file id of the cached entry, find the caller's expected file; an id absent
from the expected files throws. -/
def materialize_files (expected_files : List (String × expected_file_t))
    (file_ids : List String) : Except String (List (String × String)) :=
  match file_ids with
  | [] => .ok []
  | file_id :: rest =>
      match map_find expected_files file_id with
      | none => .error (String.append "Found unexpected cached file: " file_id)
      | some expected_file =>
          match materialize_files expected_files rest with
          | .error e => .error e
          | .ok tail => .ok ((file_id, expected_file.path) :: tail)

/-- cache_t::lookup_in_local_cache (cache.cpp, lines 192-236). -/
def cache_t.lookup_in_local_cache (c : cache_t) (hash : String)
    (expected_files : List (String × expected_file_t))
    (_allow_hard_links : Bool) (_create_target_dirs : Bool) :
    Except String (Option hit_result) :=
  match c.m_local_cache.lookup hash with
  | none => .ok none
  | some cached_entry =>
      match materialize_files expected_files cached_entry.file_ids with
      | .error e => .error e
      | .ok files =>
          .ok (some { files := files, std_out := cached_entry.std_out,
                      std_err := cached_entry.std_err,
                      return_code := cached_entry.return_code })

/-- cache_t::lookup_in_remote_cache (cache.cpp, lines 238-311): connect,
remote lookup (miss updates the remote-miss statistic), materialize the
files, emit the results, then try to promote the entry into the local cache
(admission checked against max_local_entry_size, compression per the local
compress configuration, remote-hit statistic on success; errors in the
promotion block are caught and logged). -/
def cache_t.lookup_in_remote_cache (cfg : config_t) (fs : String → Option String)
    (c : cache_t) (hash : String)
    (expected_files : List (String × expected_file_t))
    (allow_hard_links : Bool) (_create_target_dirs : Bool) :
    Except String (cache_t × Option hit_result) :=
  match c.m_remote_cache.connect with
  | false => .ok (c, none)
  | true =>
    match c.m_remote_cache.lookup hash with
    | none =>
        .ok ({ c with m_local_cache := c.m_local_cache.update_stats hash .remote_miss },
             none)
    | some cached_entry =>
        match materialize_files expected_files cached_entry.file_ids with
        | .error e => .error e
        | .ok files =>
            let res : hit_result :=
              { files := files, std_out := cached_entry.std_out,
                std_err := cached_entry.std_err,
                return_code := cached_entry.return_code }
            let c₂ :=
              match get_total_entry_size fs cached_entry expected_files with
              | .error _ => c
              | .ok size =>
                  if size < cfg.max_local_entry_size ∨ cfg.max_local_entry_size ≤ 0 then
                    let entry : cache_entry_t :=
                      { file_ids := cached_entry.file_ids,
                        compression_mode :=
                          if cfg.compress then comp_mode_t.ALL else comp_mode_t.NONE,
                        std_out := cached_entry.std_out,
                        std_err := cached_entry.std_err,
                        return_code := cached_entry.return_code }
                    let lc :=
                      (c.m_local_cache.add hash entry expected_files
                          allow_hard_links).update_stats hash .remote_hit
                    { c with m_local_cache := lc }
                  else c
            .ok (c₂, some res)

/-- cache_t::lookup (cache.cpp, lines 114-145): try the local cache, then
the remote cache; an error in either tier is caught, logged and treated as
a miss for that tier. -/
def cache_t.lookup (cfg : config_t) (fs : String → Option String) (c : cache_t)
    (hash : String) (expected_files : List (String × expected_file_t))
    (allow_hard_links : Bool) (create_target_dirs : Bool) :
    cache_t × Option hit_result :=
  let local_hit :=
    match c.lookup_in_local_cache hash expected_files allow_hard_links
        create_target_dirs with
    | .ok r => r
    | .error _ => none
  match local_hit with
  | some r => (c, some r)
  | none =>
      match cache_t.lookup_in_remote_cache cfg fs c hash expected_files
          allow_hard_links create_target_dirs with
      | .ok (c₂, r) => (c₂, r)
      | .error _ => (c, none)

/-- cache_t::add (cache.cpp, lines 147-190): compute the total entry size
(errors propagate), admit into the local cache against
max_local_entry_size, then — if the remote is connected and not read-only —
admit a recompressed copy into the remote cache against
max_remote_entry_size, catching remote errors. -/
def cache_t.add (cfg : config_t) (fs : String → Option String) (c : cache_t)
    (hash : String) (entry : cache_entry_t)
    (expected_files : List (String × expected_file_t))
    (allow_hard_links : Bool) : Except String cache_t :=
  match get_total_entry_size fs entry expected_files with
  | .error e => .error e
  | .ok size =>
      let lc :=
        if size < cfg.max_local_entry_size ∨ cfg.max_local_entry_size ≤ 0 then
          c.m_local_cache.add hash entry expected_files allow_hard_links
        else c.m_local_cache
      let rc :=
        if c.m_remote_cache.is_connected && !cfg.read_only_remote then
          if size < cfg.max_remote_entry_size ∨ cfg.max_remote_entry_size ≤ 0 then
            let remote_entry : cache_entry_t :=
              { file_ids := entry.file_ids, compression_mode := comp_mode_t.ALL,
                std_out := entry.std_out, std_err := entry.std_err,
                return_code := entry.return_code }
            if c.m_remote_cache.add_ok then
              c.m_remote_cache.add hash remote_entry expected_files
            else c.m_remote_cache
          else c.m_remote_cache
        else c.m_remote_cache
      .ok { m_local_cache := lc, m_remote_cache := rc }

/-- cache_t::lookup_direct (cache.cpp, lines 53-86): consult the direct
mode manifest store; a missing or non-matching manifest is a direct miss;
otherwise the direct-hit statistic is updated and a regular lookup runs on
the manifest's recorded preprocessor hash. -/
def cache_t.lookup_direct (cfg : config_t) (fs : String → Option String) (c : cache_t)
    (direct_hash : String) (expected_files : List (String × expected_file_t))
    (allow_hard_links : Bool) (create_target_dirs : Bool) :
    cache_t × Option hit_result :=
  match c.m_local_cache.lookup_direct fs direct_hash with
  | none =>
      ({ c with m_local_cache := c.m_local_cache.update_stats direct_hash .direct_miss },
       none)
  | some manifest =>
      let hash := manifest.hash
      let c₂ :=
        { c with m_local_cache := c.m_local_cache.update_stats direct_hash .direct_hit }
      cache_t.lookup cfg fs c₂ hash expected_files allow_hard_links create_target_dirs

/-!
Model of src/wrappers/program_wrapper.cpp.  This file uses the earlier cache
interface of the repository: entries carry the cached files as a map from
file id to cached path, and the wrapper itself copies or hard-links the
files on a hit.
-/

/-- A cache entry of the wrapper-side cache interface (cache_t::entry_t):
files (file id to cached source path), captured streams, exit code. -/
structure cache_t.entry_t where
  files : List (String × String)
  std_out : String
  std_err : String
  return_code : Int
deriving DecidableEq, Repr

/-- The result of running the wrapped program (sys::run_with_prefix). -/
structure run_result_t where
  std_out : String
  std_err : String
  return_code : Int
deriving DecidableEq, Repr

/-- capabilities_t (program_wrapper.cpp, lines 34-52): the hard_links flag
is set iff one of the wrapper's capability strings is "hard_links" (the
constructor loop folded over the strings). -/
def capabilities_t.hard_links (cap_strings : List String) : Bool :=
  cap_strings.foldl (fun m_hard_links str =>
    if str = "hard_links" then true else m_hard_links) false

/-- How a cached file is materialized: file::link_or_copy when hard links
are allowed, file::copy otherwise. -/
inductive file_op where
  | link_or_copy
  | copy
deriving DecidableEq, Repr

/-- The hit-path loop of handle_command (program_wrapper.cpp, lines
114-124): for each cached file, look up its target path with
target_files.at (throws when the id is absent) and install it by
link_or_copy when hard links are allowed, by copy otherwise. -/
def copy_cached_files (allow_hard_links : Bool)
    (target_files : List (String × String)) (files : List (String × String)) :
    Except String (List (String × String × file_op)) :=
  match files with
  | [] => .ok []
  | file :: rest =>
      match map_find target_files file.1 with
      | none => .error "out_of_range"
      | some target_file =>
          match copy_cached_files allow_hard_links target_files rest with
          | .error e => .error e
          | .ok tail =>
              .ok ((file.2, target_file,
                    if allow_hard_links then file_op.link_or_copy
                    else file_op.copy) :: tail)

/-- The inputs handle_command draws from its collaborators: the wrapper's
capability strings, the expected build files (file id to target path), the
cache lookup outcome for the computed hash, and the wrapped tool's run
result. -/
structure wrapper_env where
  cap_strings : List String
  target_files : List (String × String)
  cached : Option cache_t.entry_t
  run_result : run_result_t

/-- The observable outcome of handle_command: its return value, the exit
code it reports, the file operations performed on a hit, and the entry it
added to the cache on a miss (if any). -/
structure hc_outcome where
  handled : Bool
  return_code : Int
  file_ops : List (String × String × file_op)
  added : Option cache_t.entry_t
deriving DecidableEq, Repr

/-- program_wrapper_t::handle_command (program_wrapper.cpp, lines 62-178):
hard links are allowed iff the configuration flag and the wrapper
capability agree; on a hit the cached files are installed and the cached
results replayed (an exception, e.g. a missing target id, is caught and
handle_command returns false); on a miss the tool runs and its results are
added to the cache only when it exited with code 0. -/
def program_wrapper_t.handle_command (cfg_hard_links : Bool) (env : wrapper_env) :
    hc_outcome :=
  let allow_hard_links := cfg_hard_links && capabilities_t.hard_links env.cap_strings
  match env.cached with
  | some cached_entry =>
      match copy_cached_files allow_hard_links env.target_files cached_entry.files with
      | .error _ =>
          { handled := false, return_code := 1, file_ops := [], added := none }
      | .ok ops =>
          { handled := true, return_code := cached_entry.return_code,
            file_ops := ops, added := none }
  | none =>
      let result := env.run_result
      let added :=
        if result.return_code = 0 then
          some { files := env.target_files, std_out := result.std_out,
                 std_err := result.std_err, return_code := result.return_code }
        else none
      { handled := true, return_code := result.return_code, file_ops := [],
        added := added }

/-!
Model of src/main.cpp: the CLI dispatch (options handled when the program
is invoked under its own name "buildcache").
-/

/-- The outcome of a CLI administrative command: the process exit code, the
lines printed, and the cache size budget the command stored (if any). -/
structure cli_result where
  exit_code : Int
  out : List String
  max_size_set : Option String
deriving DecidableEq, Repr

/-- compare_arg (main.cpp, lines 155-159). -/
def compare_arg (arg short_form long_form : String) : Bool :=
  arg == short_form || arg == long_form

/-- The help text lines relevant to the max-size option (print_help,
main.cpp, lines 161-175). -/
def print_help_max_size_lines : List String :=
  ["    -M, --max-size SIZE   set maximum size of cache to SIZE (use 0 for no",
   "                          limit); available suffixes: k, M, G, T (decimal) and",
   "                          Ki, Mi, Gi, Ti (binary); default suffix: G"]

/-- set_max_size_and_exit (main.cpp, lines 72-86): the body is a TODO stub —
it prints a not-implemented notice, stores no size, and exits 0. -/
def set_max_size_and_exit (_size_arg : String) : cli_result :=
  { exit_code := 0,
    out := ["*** Setting the max size has not yet implemented"],
    max_size_set := none }

/-- The two ways main can proceed: run an administrative CLI command, or
wrap a compiler invocation. -/
inductive main_outcome where
  | cli (r : cli_result)
  | wrap (args : List String)
deriving DecidableEq, Repr

/-- main (main.cpp, lines 178-216) for an invocation under the canonical
executable name: dispatch on argv[1].  Administrative commands that touch
the cache are modelled as succeeding (exit 0); printed help output is
abstracted to the max-size lines. -/
def buildcache_main (argv : List String) : main_outcome :=
  match argv with
  | [] =>
      .cli { exit_code := 1, out := print_help_max_size_lines, max_size_set := none }
  | [_] =>
      .cli { exit_code := 1, out := print_help_max_size_lines, max_size_set := none }
  | _ :: arg_str :: rest =>
      if compare_arg arg_str "-C" "--clear" then
        .cli { exit_code := 0, out := [], max_size_set := none }
      else if compare_arg arg_str "-s" "--show-stats" then
        .cli { exit_code := 0, out := [], max_size_set := none }
      else if compare_arg arg_str "-V" "--version" then
        .cli { exit_code := 0, out := ["BuildCache version 0.0-dev"], max_size_set := none }
      else if compare_arg arg_str "-M" "--max-size" then
        match rest with
        | [] =>
            .cli { exit_code := 1, out := print_help_max_size_lines, max_size_set := none }
        | size_arg :: _ => .cli (set_max_size_and_exit size_arg)
      else if compare_arg arg_str "-h" "--help" then
        .cli { exit_code := 0, out := print_help_max_size_lines, max_size_set := none }
      else if arg_str.front = Char.ofNat 45 then
        .cli { exit_code := 1, out := print_help_max_size_lines, max_size_set := none }
      else
        .wrap (arg_str :: rest)

/-!
Helper lemmas.
-/

/-- When every required expected file is readable, the size loop succeeds
and adds the sizes of the readable files to the accumulator. -/
theorem entry_size_loop_ok (fs : String → Option String)
    (l : List (String × expected_file_t)) (t : Int)
    (h : ∀ it ∈ l, it.2.required = true → (fs it.2.path).isSome = true) :
    entry_size_loop fs l t = .ok (t + present_files_size fs l) := by
  induction l generalizing t with
  | nil => simp [entry_size_loop, present_files_size]
  | cons item rest ih =>
      have hrest : ∀ it ∈ rest, it.2.required = true → (fs it.2.path).isSome = true :=
        fun it hit => h it (List.mem_cons_of_mem _ hit)
      cases hfs : fs item.2.path with
      | some content =>
          rw [entry_size_loop]
          simp only [hfs]
          rw [ih _ hrest]
          simp [present_files_size, file_contrib, hfs]
          ring
      | none =>
          have hreq : item.2.required = false := by
            have := h item (List.mem_cons_self _ _)
            cases hr : item.2.required with
            | false => rfl
            | true => have := this hr; rw [hfs] at this; simp at this
          rw [entry_size_loop]
          simp only [hfs, hreq]
          rw [if_neg (by simp)]
          rw [ih _ hrest]
          simp [present_files_size, file_contrib, hfs]

/-- When some required expected file is unreadable, the size loop aborts
with the IO error. -/
theorem entry_size_loop_error (fs : String → Option String)
    (l : List (String × expected_file_t)) (t : Int)
    (h : ∃ it ∈ l, it.2.required = true ∧ fs it.2.path = none) :
    entry_size_loop fs l t = .error "IO" := by
  induction l generalizing t with
  | nil => simp at h
  | cons item rest ih =>
      obtain ⟨it, hit, hreq, hnone⟩ := h
      cases hfs : fs item.2.path with
      | some content =>
          rw [entry_size_loop]
          simp only [hfs]
          apply ih
          rcases List.mem_cons.mp hit with heq | hmem
          · subst heq; rw [hfs] at hnone; exact absurd hnone (by simp)
          · exact ⟨it, hmem, hreq, hnone⟩
      | none =>
          rw [entry_size_loop]
          simp only [hfs]
          cases hr : item.2.required with
          | true => simp
          | false =>
              rw [if_neg (by simp)]
              apply ih
              rcases List.mem_cons.mp hit with heq | hmem
              · subst heq; rw [hr] at hreq; exact absurd hreq (by simp)
              · exact ⟨it, hmem, hreq, hnone⟩

/-- When some cached file id is absent from the expected files, the
materialization loop throws. -/
theorem materialize_files_error (expected_files : List (String × expected_file_t))
    (file_ids : List String)
    (h : ∃ fid ∈ file_ids, map_find expected_files fid = none) :
    ∃ msg, materialize_files expected_files file_ids = .error msg := by
  induction file_ids with
  | nil => simp at h
  | cons fid rest ih =>
      obtain ⟨x, hx, hnone⟩ := h
      cases hfind : map_find expected_files fid with
      | none =>
          refine ⟨String.append "Found unexpected cached file: " fid, ?_⟩
          rw [materialize_files]
          simp only [hfind]
      | some ef =>
          have hmem : x ∈ rest := by
            rcases List.mem_cons.mp hx with heq | hmem
            · subst heq; rw [hfind] at hnone; exact absurd hnone (by simp)
            · exact hmem
          obtain ⟨msg, hmsg⟩ := ih ⟨x, hmem, hnone⟩
          refine ⟨msg, ?_⟩
          rw [materialize_files]
          simp only [hfind, hmsg]

/-- Every file operation produced by the hit-path copy loop uses hard
linking exactly when hard links were allowed. -/
theorem copy_cached_files_ops (allow : Bool) (tf : List (String × String))
    (files : List (String × String)) (res : List (String × String × file_op))
    (h : copy_cached_files allow tf files = .ok res) :
    ∀ x ∈ res, x.2.2 = if allow then file_op.link_or_copy else file_op.copy := by
  induction files generalizing res with
  | nil =>
      rw [copy_cached_files] at h
      cases h
      simp
  | cons file rest ih =>
      rw [copy_cached_files] at h
      cases hfind : map_find tf file.1 with
      | none => rw [hfind] at h; cases h
      | some target =>
          rw [hfind] at h
          cases hrec : copy_cached_files allow tf rest with
          | error e => rw [hrec] at h; cases h
          | ok tail =>
              rw [hrec] at h
              cases h
              intro x hx
              rcases List.mem_cons.mp hx with heq | hmem
              · subst heq; rfl
              · exact ih tail hrec x hmem

/-- The wrapper capability flag is set exactly when "hard_links" occurs
among the capability strings, whatever the fold's accumulator start. -/
theorem hard_links_foldl (l : List String) (b : Bool) :
    (l.foldl (fun m_hard_links str =>
        if str = "hard_links" then true else m_hard_links) b = true) ↔
      (b = true ∨ "hard_links" ∈ l) := by
  induction l generalizing b with
  | nil => simp
  | cons x xs ih =>
      simp only [List.foldl_cons]
      by_cases hx : x = "hard_links"
      · subst hx
        rw [if_pos rfl, ih]
        simp
      · rw [if_neg hx, ih, List.mem_cons]
        have : ¬("hard_links" = x) := fun hh => hx hh.symm
        simp [this]

/-!
Shared concrete fixtures for the witness theorems.
-/

/-- An empty file system. -/
def fs_empty : String → Option String := fun _ => none

/-- Zeroed statistics counters. -/
def stats_zero : stats_t :=
  { direct_hit := 0, direct_miss := 0, remote_hit := 0, remote_miss := 0 }

/-- An empty local cache. -/
def lc_empty : local_cache_t :=
  { entries := fun _ => none, manifests := fun _ => none, stats := stats_zero }

/-- A remote cache that is not reachable. -/
def rc_off : remote_cache_t :=
  { connected := false, entries := fun _ => none, add_ok := true }

/-- An engine over empty local and unreachable remote caches. -/
def c_empty : cache_t := { m_local_cache := lc_empty, m_remote_cache := rc_off }

/-- A baseline configuration: unlimited entry sizes, no compression. -/
def cfg_base : config_t :=
  { max_local_entry_size := 0, max_remote_entry_size := 0, compress := false,
    read_only_remote := false, hard_links := true }

/-- A file system holding one object file of three bytes. -/
def fs_obj : String → Option String :=
  fun p => if p = "obj.o" then some "xyz" else none

/-- An entry used by the C5 witness: two stdout bytes, no stderr. -/
def entry_w5 : cache_entry_t :=
  { file_ids := ["object"], compression_mode := comp_mode_t.NONE, std_out := "ab",
    std_err := "", return_code := 0 }

/-- Expected files of the C5 witness: a required object file plus an
optional, absent dependency file. -/
def ef_w5 : List (String × expected_file_t) :=
  [("object", { path := "obj.o", required := true }),
   ("dep", { path := "missing.d", required := false })]

/-- An entry of total size two, used by the C6 witness. -/
def entry_w6 : cache_entry_t :=
  { file_ids := [], compression_mode := comp_mode_t.NONE, std_out := "ab",
    std_err := "", return_code := 0 }

/-- A configuration with a one-byte local entry size limit. -/
def cfg_w6 : config_t :=
  { cfg_base with max_local_entry_size := 1 }

/-- The environment of the C9 witness: the wrapper reports the hard_links
capability and the cache hits with a single object file. -/
def env_w9 : wrapper_env :=
  { cap_strings := ["hard_links"],
    target_files := [("object", "out.o")],
    cached := some { files := [("object", "cached/o")], std_out := "",
                     std_err := "", return_code := 0 },
    run_result := { std_out := "", std_err := "", return_code := 0 } }

/-- A direct mode manifest recording one implicit input. -/
def manifest_w1 : direct_mode_manifest_t :=
  { hash := "ph", files := [("hdr.h", "h:old")] }

/-- A local cache holding the manifest_w1 manifest under direct hash dh. -/
def lc_w1 : local_cache_t :=
  { lc_empty with manifests := fun d => if d = "dh" then some manifest_w1 else none }

/-- An engine whose local cache holds manifest_w1. -/
def c_w1 : cache_t := { m_local_cache := lc_w1, m_remote_cache := rc_off }

/-- A file system where the implicit input has been modified. -/
def fs_w1_changed : String → Option String :=
  fun p => if p = "hdr.h" then some "new" else none

/-- A file system where the implicit input still has its recorded content. -/
def fs_w1_same : String → Option String :=
  fun p => if p = "hdr.h" then some "old" else none

/-- An entry listing a file id, used to trigger the unexpected-file
mismatch against an empty expected-file map. -/
def entry_bad : cache_entry_t :=
  { file_ids := ["obj"], compression_mode := comp_mode_t.NONE, std_out := "",
    std_err := "", return_code := 0 }

/-- An entry with a required expected file that is absent on disk. -/
def entry_w2 : cache_entry_t :=
  { file_ids := [], compression_mode := comp_mode_t.NONE, std_out := "",
    std_err := "", return_code := 0 }

/-- Expected files naming a required file that does not exist. -/
def ef_w2 : List (String × expected_file_t) :=
  [("object", { path := "gone.o", required := true })]

/-- A local cache holding entry_bad under hash h2. -/
def lc_w2 : local_cache_t :=
  { lc_empty with entries := fun h => if h = "h2" then some entry_bad else none }

/-- A reachable remote cache holding entry_bad under hash h2. -/
def rc_w2 : remote_cache_t :=
  { connected := true, entries := fun h => if h = "h2" then some entry_bad else none,
    add_ok := true }

/-- An engine where both tiers hold a mismatching entry under h2. -/
def c_w2 : cache_t := { m_local_cache := lc_w2, m_remote_cache := rc_w2 }

/-- A remote entry of total size two with captured stdout and exit code. -/
def entry_big : cache_entry_t :=
  { file_ids := [], compression_mode := comp_mode_t.ALL, std_out := "ab",
    std_err := "", return_code := 7 }

/-- A reachable remote cache holding entry_big under hash h3. -/
def rc_w3 : remote_cache_t :=
  { connected := true, entries := fun h => if h = "h3" then some entry_big else none,
    add_ok := true }

/-- An engine with an empty local cache and entry_big in the remote. -/
def c_w3 : cache_t := { m_local_cache := lc_empty, m_remote_cache := rc_w3 }

/-- A configuration whose local entry size limit (one byte) is below the
size of entry_big, with local compression on. -/
def cfg_w3 : config_t :=
  { cfg_base with max_local_entry_size := 1, compress := true }

/-- A local cache holding the mismatching entry_bad under hash h4. -/
def lc_w4 : local_cache_t :=
  { lc_empty with entries := fun h => if h = "h4" then some entry_bad else none }

/-- An engine with a mismatching local entry and no remote. -/
def c_w4 : cache_t := { m_local_cache := lc_w4, m_remote_cache := rc_off }

/-- A reachable remote cache with no entries. -/
def rc_w10 : remote_cache_t :=
  { connected := true, entries := fun _ => none, add_ok := true }

/-- An engine with an empty local cache and a reachable, empty remote. -/
def c_w10 : cache_t := { m_local_cache := lc_empty, m_remote_cache := rc_w10 }

/-!
Claim theorems.
-/

/-- Claim C5: the total uncompressed size computed at insert time equals
the stdout byte length plus the stderr byte length plus the sum of the
on-disk sizes of the expected files; an unreadable expected file
contributes zero when optional and aborts the computation with an IO error
when required. -/
theorem C5_total_entry_size (fs : String → Option String) (entry : cache_entry_t)
    (file_paths : List (String × expected_file_t)) :
    ((∀ it ∈ file_paths, it.2.required = true → (fs it.2.path).isSome = true) →
      get_total_entry_size fs entry file_paths =
        .ok ((entry.std_out.length : Int) + (entry.std_err.length : Int) +
          present_files_size fs file_paths))
    ∧ ((∃ it ∈ file_paths, it.2.required = true ∧ fs it.2.path = none) →
      get_total_entry_size fs entry file_paths = .error "IO") := by
  constructor
  · intro h
    rw [get_total_entry_size, entry_size_loop_ok fs file_paths _ h]
  · intro h
    rw [get_total_entry_size, entry_size_loop_error fs file_paths _ h]

theorem C5_total_entry_size_witness :
    get_total_entry_size fs_obj entry_w5 ef_w5 = .ok 5 := by
  have h := (C5_total_entry_size fs_obj entry_w5 ef_w5).1 (by decide)
  rw [h]
  simp only [Except.ok.injEq]
  decide

/-- Claim C6: an entry whose total size reaches a positive
max_local_entry_size is not inserted into the local cache (a subsequent
local lookup of the hash misses); below the limit, or with the limit
non-positive (unlimited), the entry is inserted. -/
theorem C6_local_admission (cfg : config_t) (fs : String → Option String)
    (c : cache_t) (hash : String) (entry : cache_entry_t)
    (expected_files : List (String × expected_file_t)) (allow_hard_links : Bool)
    (size : Int) (hsize : get_total_entry_size fs entry expected_files = .ok size) :
    ((cfg.max_local_entry_size ≤ size ∧ 0 < cfg.max_local_entry_size) →
      ∃ c₂, cache_t.add cfg fs c hash entry expected_files allow_hard_links = .ok c₂ ∧
        c₂.m_local_cache = c.m_local_cache ∧
        (c.m_local_cache.entries hash = none →
          ∀ cd, c₂.lookup_in_local_cache hash expected_files allow_hard_links cd =
            .ok none))
    ∧ ((size < cfg.max_local_entry_size ∨ cfg.max_local_entry_size ≤ 0) →
      ∃ c₂, cache_t.add cfg fs c hash entry expected_files allow_hard_links = .ok c₂ ∧
        c₂.m_local_cache.entries hash = some entry) := by
  constructor
  · rintro ⟨hle, hpos⟩
    have hneg : ¬(size < cfg.max_local_entry_size ∨ cfg.max_local_entry_size ≤ 0) := by
      omega
    rw [cache_t.add]
    simp only [hsize]
    rw [if_neg hneg]
    refine ⟨_, rfl, rfl, ?_⟩
    intro hnone cd
    rw [cache_t.lookup_in_local_cache]
    simp [local_cache_t.lookup, hnone]
  · intro hlt
    rw [cache_t.add]
    simp only [hsize]
    rw [if_pos hlt]
    refine ⟨_, rfl, ?_⟩
    simp [local_cache_t.add]

theorem C6_local_admission_witness :
    ∃ c₂, cache_t.add cfg_w6 fs_empty c_empty "h1" entry_w6 [] true = .ok c₂ ∧
      c₂.m_local_cache = c_empty.m_local_cache ∧
      (c_empty.m_local_cache.entries "h1" = none →
        ∀ cd, c₂.lookup_in_local_cache "h1" [] true cd = .ok none) :=
  (C6_local_admission cfg_w6 fs_empty c_empty "h1" entry_w6 [] true 2 (by rfl)).1
    (by decide)

/-- Claim C7: after a cache miss, handle_command adds an entry to the cache
exactly when the wrapped tool exited with return code 0; a hit never adds,
and a failed invocation is never cached. -/
theorem C7_no_caching_of_failures (cfg_hard_links : Bool) (env : wrapper_env) :
    (program_wrapper_t.handle_command cfg_hard_links env).added.isSome = true ↔
      (env.cached = none ∧ env.run_result.return_code = 0) := by
  rw [program_wrapper_t.handle_command]
  cases hc : env.cached with
  | some e =>
      cases hcp : copy_cached_files
          (cfg_hard_links && capabilities_t.hard_links env.cap_strings)
          env.target_files e.files with
      | error msg => simp [hcp]
      | ok ops => simp [hcp]
  | none =>
      by_cases hrc : env.run_result.return_code = 0
      · simp [hrc]
      · simp [hrc]

/-- Claim C8 (code bug evidence): invoking the CLI as
`buildcache -M 10G` runs the TODO stub set_max_size_and_exit, which prints
a not-implemented notice, stores no cache size budget, and exits 0 — while
the program's own help text documents -M and --max-size as setting the maximum
cache size with the k/M/G/T and Ki/Mi/Gi/Ti suffixes. -/
theorem C8_max_size_is_a_stub :
    buildcache_main ["buildcache", "-M", "10G"] =
      .cli { exit_code := 0,
             out := ["*** Setting the max size has not yet implemented"],
             max_size_set := none } ∧
    (set_max_size_and_exit "10G").max_size_set = none ∧
    print_help_max_size_lines ≠ [] := by
  refine ⟨?_, rfl, by decide⟩
  decide

/-- Claim C9: a cached file is materialized by hard link only when both the
hard_links configuration flag and the wrapper's "hard_links" capability
string are present; otherwise every cached file is materialized by plain
copy. -/
theorem C9_hard_link_gating (cfg_hard_links : Bool) (env : wrapper_env) :
    (∀ x ∈ (program_wrapper_t.handle_command cfg_hard_links env).file_ops,
      x.2.2 = if cfg_hard_links && capabilities_t.hard_links env.cap_strings then
        file_op.link_or_copy else file_op.copy)
    ∧ (capabilities_t.hard_links env.cap_strings = true ↔
        "hard_links" ∈ env.cap_strings) := by
  constructor
  · intro x hx
    rw [program_wrapper_t.handle_command] at hx
    split at hx
    · split at hx
      · simp at hx
      · exact copy_cached_files_ops _ _ _ _ (by assumption) x hx
    · simp at hx
  · rw [capabilities_t.hard_links, hard_links_foldl]
    simp

theorem C9_hard_link_gating_witness :
    (("cached/o", "out.o", file_op.link_or_copy) : String × String × file_op).2.2 =
      if true && capabilities_t.hard_links env_w9.cap_strings then
        file_op.link_or_copy else file_op.copy :=
  (C9_hard_link_gating true env_w9).1 _ (by decide)

/-- Claim C1: for a stored direct mode manifest, lookup_direct proceeds to
a regular lookup on the recorded preprocessor hash (after a direct-hit
statistics update) exactly when every implicit input file listed in the
manifest still hashes to its recorded content hash; if any listed file has
been modified (or removed), lookup_direct is a direct miss. -/
theorem C1_direct_mode_validation (cfg : config_t) (fs : String → Option String)
    (c : cache_t) (direct_hash : String)
    (expected_files : List (String × expected_file_t)) (a cd : Bool)
    (m : direct_mode_manifest_t)
    (hman : c.m_local_cache.manifests direct_hash = some m) :
    ((∃ pr ∈ m.files, file_hash_ok fs pr = false) →
      cache_t.lookup_direct cfg fs c direct_hash expected_files a cd =
        ({ c with m_local_cache :=
             c.m_local_cache.update_stats direct_hash .direct_miss }, none))
    ∧ ((∀ pr ∈ m.files, file_hash_ok fs pr = true) →
      cache_t.lookup_direct cfg fs c direct_hash expected_files a cd =
        cache_t.lookup cfg fs
          { c with m_local_cache :=
              c.m_local_cache.update_stats direct_hash .direct_hit }
          m.hash expected_files a cd) := by
  constructor
  · intro h
    have hall : m.files.all (fun pr => file_hash_ok fs pr) = false := by
      obtain ⟨pr, hpr, hf⟩ := h
      rw [List.all_eq_false]
      exact ⟨pr, hpr, by simp [hf]⟩
    rw [cache_t.lookup_direct, local_cache_t.lookup_direct]
    simp only [hman, hall]
    rfl
  · intro h
    have hall : m.files.all (fun pr => file_hash_ok fs pr) = true := by
      rw [List.all_eq_true]
      intro pr hpr
      simp [h pr hpr]
    rw [cache_t.lookup_direct, local_cache_t.lookup_direct]
    simp only [hman, hall]
    rfl

theorem C1_direct_mode_validation_witness :
    (cache_t.lookup_direct cfg_base fs_w1_changed c_w1 "dh" [] true true =
      ({ c_w1 with m_local_cache :=
           c_w1.m_local_cache.update_stats "dh" .direct_miss }, none))
    ∧ (cache_t.lookup_direct cfg_base fs_w1_same c_w1 "dh" [] true true =
      cache_t.lookup cfg_base fs_w1_same
        { c_w1 with m_local_cache := c_w1.m_local_cache.update_stats "dh" .direct_hit }
        manifest_w1.hash [] true true) :=
  ⟨(C1_direct_mode_validation cfg_base fs_w1_changed c_w1 "dh" [] true true
      manifest_w1 (by decide)).1 ⟨("hdr.h", "h:old"), by decide, by decide⟩,
   (C1_direct_mode_validation cfg_base fs_w1_same c_w1 "dh" [] true true
      manifest_w1 (by decide)).2 (by decide)⟩

/-- Claim C2 counterexample: cache_t::add does propagate an exception to
its caller.  With a required expected file that is absent on disk, the
size computation throws an IO error that cache_t::add neither catches nor
converts to a warning: the call errors instead of skipping the insert
silently. -/
theorem C2_counterexample_add_propagates :
    cache_t.add cfg_base fs_empty c_empty "h2" entry_w2 ef_w2 true =
      .error "IO" := by
  rfl

/-- Claim C2 (amended): cache_t::lookup never propagates an exception —
an error in each tier is converted to a miss for that tier — and
cache_t::add succeeds whenever the entry size computation succeeds (remote
insert errors are caught inside add); but an error while computing the
total entry size propagates out of cache_t::add (see the counterexample). -/
theorem C2_error_conversion (cfg : config_t) (fs : String → Option String)
    (c : cache_t) (hash : String)
    (expected_files : List (String × expected_file_t)) (entry : cache_entry_t)
    (a cd : Bool) (size : Int) :
    ((∀ e₁, c.lookup_in_local_cache hash expected_files a cd = .error e₁ →
      ∀ e₂, cache_t.lookup_in_remote_cache cfg fs c hash expected_files a cd =
          .error e₂ →
        cache_t.lookup cfg fs c hash expected_files a cd = (c, none)))
    ∧ (get_total_entry_size fs entry expected_files = .ok size →
      ∃ c₂, cache_t.add cfg fs c hash entry expected_files a = .ok c₂) := by
  constructor
  · intro e₁ h₁ e₂ h₂
    rw [cache_t.lookup]
    simp only [h₁, h₂]
  · intro hsize
    rw [cache_t.add]
    simp only [hsize]
    exact ⟨_, rfl⟩

theorem C2_error_conversion_witness :
    cache_t.lookup cfg_base fs_empty c_w2 "h2" [] true true = (c_w2, none) ∧
    ∃ c₂, cache_t.add cfg_base fs_empty c_w2 "h2" entry_w2 [] true = .ok c₂ :=
  ⟨(C2_error_conversion cfg_base fs_empty c_w2 "h2" [] entry_w2 true true 0).1
      (String.append "Found unexpected cached file: " "obj") (by rfl)
      (String.append "Found unexpected cached file: " "obj") (by rfl),
   (C2_error_conversion cfg_base fs_empty c_w2 "h2" [] entry_w2 true true 0).2
      (by rfl)⟩

/-- Claim C3 counterexample: on a remote hit whose entry size reaches the
positive max_local_entry_size, lookup_in_remote_cache still returns the
hit with the cached streams and exit code, but it neither promotes the
entry into the local cache nor increments the remote-hit statistic: the
returned state is unchanged, the hash stays absent from the local entries
and the remote-hit counter stays zero. -/
theorem C3_counterexample_no_promotion :
    cache_t.lookup_in_remote_cache cfg_w3 fs_empty c_w3 "h3" [] true true =
      .ok (c_w3, some { files := [], std_out := "ab", std_err := "",
                        return_code := 7 }) ∧
    c_w3.m_local_cache.entries "h3" = none ∧
    c_w3.m_local_cache.stats.remote_hit = 0 :=
  ⟨rfl, rfl, rfl⟩

/-- Claim C3 (amended): on a remote cache hit, lookup_in_remote_cache
materializes each file listed by the entry, emits the captured streams,
sets the return code and returns a hit; and it promotes the entry into the
local cache — with the compression mode dictated by the local compress
configuration — and increments the remote-hit statistic exactly when the
entry's total size passes the local admission check (size below
max_local_entry_size, or the limit non-positive meaning unlimited);
an oversize entry is returned as a hit with the local cache unchanged. -/
theorem C3_remote_hit_promotion (cfg : config_t) (fs : String → Option String)
    (c : cache_t) (hash : String)
    (expected_files : List (String × expected_file_t)) (a cd : Bool)
    (e : cache_entry_t) (fl : List (String × String)) (size : Int)
    (hcon : c.m_remote_cache.connected = true)
    (hent : c.m_remote_cache.entries hash = some e)
    (hmat : materialize_files expected_files e.file_ids = .ok fl)
    (hsize : get_total_entry_size fs e expected_files = .ok size) :
    ((size < cfg.max_local_entry_size ∨ cfg.max_local_entry_size ≤ 0) →
      ∃ c₂, cache_t.lookup_in_remote_cache cfg fs c hash expected_files a cd =
          .ok (c₂, some { files := fl, std_out := e.std_out, std_err := e.std_err,
                          return_code := e.return_code }) ∧
        c₂.m_local_cache.entries hash =
          some { file_ids := e.file_ids,
                 compression_mode :=
                   if cfg.compress then comp_mode_t.ALL else comp_mode_t.NONE,
                 std_out := e.std_out, std_err := e.std_err,
                 return_code := e.return_code } ∧
        c₂.m_local_cache.stats.remote_hit = c.m_local_cache.stats.remote_hit + 1)
    ∧ ((cfg.max_local_entry_size ≤ size ∧ 0 < cfg.max_local_entry_size) →
      cache_t.lookup_in_remote_cache cfg fs c hash expected_files a cd =
        .ok (c, some { files := fl, std_out := e.std_out, std_err := e.std_err,
                       return_code := e.return_code })) := by
  have hcon2 : c.m_remote_cache.connect = true := hcon
  have hent2 : c.m_remote_cache.lookup hash = some e := hent
  constructor
  · intro hadm
    rw [cache_t.lookup_in_remote_cache]
    simp only [hcon2, hent2, hmat, hsize]
    rw [if_pos hadm]
    refine ⟨_, rfl, ?_, ?_⟩
    · simp [local_cache_t.update_stats, local_cache_t.add]
    · simp [local_cache_t.update_stats, local_cache_t.add, stats_t.apply]
  · rintro ⟨hle, hpos⟩
    rw [cache_t.lookup_in_remote_cache]
    simp only [hcon2, hent2, hmat, hsize]
    rw [if_neg (by omega)]

theorem C3_remote_hit_promotion_witness :
    ∃ c₂, cache_t.lookup_in_remote_cache cfg_base fs_empty c_w3 "h3" [] true true =
        .ok (c₂, some { files := [], std_out := "ab", std_err := "",
                        return_code := 7 }) ∧
      c₂.m_local_cache.entries "h3" =
        some { file_ids := [], compression_mode := comp_mode_t.NONE,
               std_out := "ab", std_err := "", return_code := 7 } ∧
      c₂.m_local_cache.stats.remote_hit = c_w3.m_local_cache.stats.remote_hit + 1 :=
  (C3_remote_hit_promotion cfg_base fs_empty c_w3 "h3" [] true true entry_big [] 2
    (by rfl) (by decide) (by rfl) (by rfl)).1 (Or.inr (by decide))

/-- Claim C4: when every entry the two tiers hold for the hash lists a
file id absent from the caller's expected files, retrieval is aborted
(the local tier lookup throws), the overall lookup reports a miss to the
caller, and no cache entry is deleted: the entry stores of both tiers are
unchanged. -/
theorem C4_unexpected_file_id (cfg : config_t) (fs : String → Option String)
    (c : cache_t) (hash : String)
    (expected_files : List (String × expected_file_t)) (a cd : Bool)
    (hl : ∀ e, c.m_local_cache.entries hash = some e →
      ∃ fid ∈ e.file_ids, map_find expected_files fid = none)
    (hr : ∀ e, c.m_remote_cache.entries hash = some e →
      ∃ fid ∈ e.file_ids, map_find expected_files fid = none) :
    (cache_t.lookup cfg fs c hash expected_files a cd).2 = none ∧
    (cache_t.lookup cfg fs c hash expected_files a cd).1.m_local_cache.entries =
      c.m_local_cache.entries ∧
    (cache_t.lookup cfg fs c hash expected_files a cd).1.m_remote_cache.entries =
      c.m_remote_cache.entries ∧
    (∀ e, c.m_local_cache.entries hash = some e →
      ∃ msg, c.lookup_in_local_cache hash expected_files a cd = .error msg) := by
  have hlocal : (c.lookup_in_local_cache hash expected_files a cd = .ok none) ∨
      (∃ msg, c.lookup_in_local_cache hash expected_files a cd = .error msg) := by
    cases hle : c.m_local_cache.entries hash with
    | none =>
        left
        rw [cache_t.lookup_in_local_cache]
        simp [local_cache_t.lookup, hle]
    | some e =>
        right
        obtain ⟨msg, hmsg⟩ := materialize_files_error expected_files e.file_ids
          (hl e hle)
        refine ⟨msg, ?_⟩
        rw [cache_t.lookup_in_local_cache]
        simp [local_cache_t.lookup, hle, hmsg]
  have hremote : (∃ c₂, cache_t.lookup_in_remote_cache cfg fs c hash expected_files
        a cd = .ok (c₂, none) ∧ c₂.m_local_cache.entries = c.m_local_cache.entries ∧
        c₂.m_remote_cache.entries = c.m_remote_cache.entries) ∨
      (∃ msg, cache_t.lookup_in_remote_cache cfg fs c hash expected_files a cd =
        .error msg) := by
    rw [cache_t.lookup_in_remote_cache]
    cases hcon : c.m_remote_cache.connect with
    | false => exact Or.inl ⟨c, rfl, rfl, rfl⟩
    | true =>
        cases hre : c.m_remote_cache.lookup hash with
        | none =>
            exact Or.inl ⟨_, rfl, by simp [local_cache_t.update_stats], rfl⟩
        | some e =>
            obtain ⟨msg, hmsg⟩ := materialize_files_error expected_files e.file_ids
              (hr e hre)
            right
            exact ⟨msg, by simp only [hmsg]⟩
  have hmain : (cache_t.lookup cfg fs c hash expected_files a cd).2 = none ∧
      (cache_t.lookup cfg fs c hash expected_files a cd).1.m_local_cache.entries =
        c.m_local_cache.entries ∧
      (cache_t.lookup cfg fs c hash expected_files a cd).1.m_remote_cache.entries =
        c.m_remote_cache.entries := by
    rw [cache_t.lookup]
    rcases hlocal with h₁ | ⟨msg, h₁⟩ <;>
      rcases hremote with ⟨c₂, h₂, h₂l, h₂r⟩ | ⟨msg₂, h₂⟩ <;>
        simp_all
  refine ⟨hmain.1, hmain.2.1, hmain.2.2, ?_⟩
  intro e he
  rcases hlocal with h₁ | ⟨msg, h₁⟩
  · exfalso
    obtain ⟨msg, hmsg⟩ := materialize_files_error expected_files e.file_ids (hl e he)
    rw [cache_t.lookup_in_local_cache] at h₁
    simp [local_cache_t.lookup, he, hmsg] at h₁
  · exact ⟨msg, h₁⟩

theorem C4_unexpected_file_id_witness :
    (cache_t.lookup cfg_base fs_empty c_w4 "h4" [] true true).2 = none ∧
    (cache_t.lookup cfg_base fs_empty c_w4 "h4" [] true true).1.m_local_cache.entries =
      c_w4.m_local_cache.entries := by
  have h := C4_unexpected_file_id cfg_base fs_empty c_w4 "h4" [] true true
    (fun e he => by
      have heq : entry_bad = e := by
        simpa [c_w4, lc_w4] using he
      subst heq
      exact ⟨"obj", by decide, rfl⟩)
    (fun e he => by
      exact absurd he (by simp [c_w4, rc_off]))
  exact ⟨h.1, h.2.1⟩

/-- Claim C10: when the remote cache fails to connect,
lookup_in_remote_cache returns a miss with the engine state — statistics
included — fully unchanged, for every possible remote store content; and
the remote-miss counter is incremented exactly when a connected remote
lookup finds no entry. -/
theorem C10_remote_connect_frame (cfg : config_t) (fs : String → Option String)
    (c : cache_t) (hash : String)
    (expected_files : List (String × expected_file_t)) (a cd : Bool) :
    (c.m_remote_cache.connected = false →
      cache_t.lookup_in_remote_cache cfg fs c hash expected_files a cd =
        .ok (c, none))
    ∧ (c.m_remote_cache.connected = true → c.m_remote_cache.entries hash = none →
      cache_t.lookup_in_remote_cache cfg fs c hash expected_files a cd =
        .ok ({ c with m_local_cache :=
                 c.m_local_cache.update_stats hash .remote_miss }, none))
    ∧ (∀ c₂ r, cache_t.lookup_in_remote_cache cfg fs c hash expected_files a cd =
          .ok (c₂, r) →
        c₂.m_local_cache.stats.remote_miss ≠ c.m_local_cache.stats.remote_miss →
        c.m_remote_cache.connected = true ∧ c.m_remote_cache.entries hash = none ∧
          r = none ∧
          c₂.m_local_cache.stats.remote_miss =
            c.m_local_cache.stats.remote_miss + 1) := by
  refine ⟨?_, ?_, ?_⟩
  · intro hcon
    rw [cache_t.lookup_in_remote_cache]
    have : c.m_remote_cache.connect = false := hcon
    simp only [this]
  · intro hcon hent
    rw [cache_t.lookup_in_remote_cache]
    have h₁ : c.m_remote_cache.connect = true := hcon
    have h₂ : c.m_remote_cache.lookup hash = none := hent
    simp only [h₁, h₂]
  · intro c₂ r h hne
    rw [cache_t.lookup_in_remote_cache] at h
    cases hcon : c.m_remote_cache.connect with
    | false =>
        rw [hcon] at h
        simp only [Except.ok.injEq, Prod.mk.injEq] at h
        exact absurd (h.1 ▸ rfl) hne
    | true =>
        rw [hcon] at h
        cases hre : c.m_remote_cache.lookup hash with
        | none =>
            rw [hre] at h
            simp only [Except.ok.injEq, Prod.mk.injEq] at h
            refine ⟨hcon, hre, h.2.symm, ?_⟩
            rw [← h.1]
            simp [local_cache_t.update_stats, stats_t.apply]
        | some e =>
            rw [hre] at h
            simp only [] at h
            exfalso
            cases hmat : materialize_files expected_files e.file_ids with
            | error msg => rw [hmat] at h; cases h
            | ok fl =>
                rw [hmat] at h
                simp only [Except.ok.injEq, Prod.mk.injEq] at h
                apply hne
                rw [← h.1]
                cases hsz : get_total_entry_size fs e expected_files with
                | error msg => simp only [hsz]
                | ok size =>
                    simp only [hsz]
                    by_cases hadm : size < cfg.max_local_entry_size ∨
                        cfg.max_local_entry_size ≤ 0
                    · rw [if_pos hadm]
                      simp [local_cache_t.update_stats, local_cache_t.add,
                        stats_t.apply]
                    · rw [if_neg hadm]

theorem C10_remote_connect_frame_witness :
    cache_t.lookup_in_remote_cache cfg_base fs_empty c_empty "h" [] true true =
      .ok (c_empty, none) ∧
    cache_t.lookup_in_remote_cache cfg_base fs_empty c_w10 "h" [] true true =
      .ok ({ c_w10 with m_local_cache :=
               c_w10.m_local_cache.update_stats "h" .remote_miss }, none) ∧
    (c_w10.m_remote_cache.connected = true ∧ c_w10.m_remote_cache.entries "h" = none ∧
      (none : Option hit_result) = none ∧
      ({ c_w10 with m_local_cache :=
           c_w10.m_local_cache.update_stats "h" .remote_miss
         }).m_local_cache.stats.remote_miss =
        c_w10.m_local_cache.stats.remote_miss + 1) :=
  ⟨(C10_remote_connect_frame cfg_base fs_empty c_empty "h" [] true true).1 rfl,
   (C10_remote_connect_frame cfg_base fs_empty c_w10 "h" [] true true).2.1 rfl rfl,
   (C10_remote_connect_frame cfg_base fs_empty c_w10 "h" [] true true).2.2 _ _
     (by rfl) (by decide)⟩

end BuildCache
